import Mathlib

/-!
Shallow embedding of the mini-AI-agent-system research pipeline
(`app/agent.py`, `app/extractor.py`, `app/db.py`) and proofs of the
specified properties.  Network calls, the PDF/HTML parsing libraries,
the language-model service and the database are external effects; they
are modelled by explicit oracle values threaded through the embedded
functions, while all in-repository control flow (branching, retries,
truncation, bookkeeping, error handling) is translated directly from
the Python source.
-/

set_option maxHeartbeats 1000000
set_option maxRecDepth 20000

namespace MiniAgent

/-! ### Python string primitives used by the source -/

/-- Python's whitespace class as used by `str.strip` and the regex `\s`
(space, tab, newline, carriage return, form feed, vertical tab). -/
def isPyWs (c : Char) : Bool :=
  c = ' ' || c = '\t' || c = '\n' || c = '\x0d' || c = '\x0c' || c = '\x0b'

/-- `str.strip()` on a character list: drop whitespace from both ends. -/
def strip_chars (l : List Char) : List Char :=
  ((l.dropWhile isPyWs).reverse.dropWhile isPyWs).reverse

/-- `str.strip()` on a string. -/
def pyStrip (s : String) : String :=
  String.mk (strip_chars s.toList)

/-- Python's substring test `sub in s`. -/
def containsSub (s sub : String) : Bool :=
  decide (List.IsInfix sub.toList s.toList)

/-- Python's `str.lower()` (character-wise lowercasing, as the source
applies it to ASCII URLs, content types and detected section headers). -/
def py_lower (s : String) : String :=
  String.mk (s.toList.map Char.toLower)

/-- Python's `str.startswith(pre)`. -/
def py_startswith (s pre : String) : Bool :=
  pre.toList.isPrefixOf s.toList

/-! ### URL Gate — `agent.py`, `is_valid_url` (lines 301-323) -/

/-- The fixed denylist of social/media domains (`agent.py` line 305). -/
def blocked_domains : List String :=
  ["youtube.com", "youtu.be", "twitter.com", "x.com",
   "facebook.com", "instagram.com", "linkedin.com",
   "reddit.com", "tiktok.com"]

/-- The fixed denylist of binary file extensions (`agent.py` line 311). -/
def blocked_extensions : List String :=
  [".mp4", ".mp3", ".jpg", ".png", ".gif", ".zip", ".exe"]

/-- `agent.py` `is_valid_url`: lowercase the URL, reject when any blocked
domain or blocked extension occurs as a substring, accept otherwise. -/
def is_valid_url (url : String) : Bool :=
  let url_lower := py_lower url
  if blocked_domains.any (fun domain => containsSub url_lower domain) then
    false
  else if blocked_extensions.any (fun ext => containsSub url_lower ext) then
    false
  else
    true

/-! ### Per-source character budget — `agent.py` line 36 -/

/-- `agent.py` line 36: `min(3000, 12000 // max(1, len(sources)))`
(Python floor division on nonnegative integers is `Nat.div`). -/
def max_content_per_source (source_count : Nat) : Nat :=
  min 3000 (12000 / max 1 source_count)

/-! ### Content Fetcher — `extractor.py`, `fetch_url` (lines 18-80)

The network is external: an oracle `Nat → AttemptRes` gives, for each
attempt index of the retry loop, the outcome of that HTTP request
(which `requests` exception it raised, or the response on success). -/

/-- Outcome of one `session.get` attempt inside `fetch_url`'s retry loop.
On success the oracle carries the declared `Content-Type` header, the
optional declared `Content-Length` header, and the streamed chunks. -/
inductive AttemptRes where
  | timeout
  | connError
  | httpError (status : Nat)
  | reqError (msg : String)
  | otherExc (msg : String)
  | success (contentType : String) (contentLength : Option Nat)
      (chunks : List (List Nat))
deriving DecidableEq

/-- The 50 MB byte ceiling (`50 * 1024 * 1024`, `extractor.py` line 47). -/
def SIZE_LIMIT : Nat := 50 * 1024 * 1024

/-- `extractor.py` lines 51-55: accumulate streamed chunks into `content`,
aborting with `none` ("Content too large during download") as soon as the
accumulated length exceeds the 50 MB ceiling. -/
def read_chunks : List (List Nat) → List Nat → Option (List Nat)
  | [], acc => some acc
  | c :: rest, acc =>
    let acc2 := acc ++ c
    if acc2.length > SIZE_LIMIT then none
    else read_chunks rest acc2

/-- Result triple of `fetch_url`: `(content_bytes, content_type, error)`. -/
def FetchRet := Option (List Nat) × Option String × Option String

/-- `extractor.py` lines 43-57: the response-handling part of one
successful `session.get` — content-length precheck against the 50 MB
ceiling, then the streamed read, then the `(content, content_type, None)`
return with the lowercased content type.  `att`/`slp` are the
instrumentation counters threaded by `fetch_loop`. -/
def fetch_success_result (contentType : String) (contentLength : Option Nat)
    (chunks : List (List Nat)) (att slp : Nat) : FetchRet × Nat × Nat :=
  if (match contentLength with
      | some n => decide (n > SIZE_LIMIT)
      | none => false) = true then
    ((none, none, some "Content too large (>50MB)"), att + 1, slp)
  else
    match read_chunks chunks [] with
    | none =>
      ((none, none, some "Content too large during download"), att + 1, slp)
    | some content =>
      ((some content, some (py_lower contentType), none), att + 1, slp)

/-- The body of `fetch_url`'s `for attempt in range(max_retries + 1)` loop
(`extractor.py` lines 28-78), with `max_retries = 2`.  `fuel` counts the
remaining loop iterations (starting at 3), `attempt` is the Python loop
index, and `att`/`slp` instrument the number of attempts issued and of
`time.sleep(1)` calls performed.  Falling off the loop returns
"All retry attempts failed" (line 80). -/
def fetch_loop (w : Nat → AttemptRes) (timeout : Nat) :
    Nat → Nat → Nat → Nat → FetchRet × Nat × Nat
  | 0, _, att, slp => ((none, none, some "All retry attempts failed"), att, slp)
  | fuel + 1, attempt, att, slp =>
    match w attempt with
    | .timeout =>
      if attempt < 2 then
        fetch_loop w timeout fuel (attempt + 1) (att + 1) (slp + 1)
      else
        ((none, none,
          some ("Timeout after " ++ toString timeout ++ "s (tried 3 times)")),
         att + 1, slp)
    | .connError =>
      if attempt < 2 then
        fetch_loop w timeout fuel (attempt + 1) (att + 1) (slp + 1)
      else
        ((none, none, some "Connection failed"), att + 1, slp)
    | .httpError status =>
      ((none, none, some ("HTTP error: " ++ toString status)), att + 1, slp)
    | .reqError msg =>
      ((none, none, some ("Request error: " ++ msg)), att + 1, slp)
    | .otherExc msg =>
      ((none, none, some ("Unexpected error: " ++ msg)), att + 1, slp)
    | .success contentType contentLength chunks =>
      fetch_success_result contentType contentLength chunks att slp

/-- `extractor.py` line 23: the scheme pre-check of `fetch_url`. -/
def valid_url_format (url : String) : Bool :=
  !(url = "") && (py_startswith url "http://" || py_startswith url "https://")

/-- `extractor.py` `fetch_url`, instrumented: returns the result triple
together with the number of request attempts issued and the number of
one-second sleeps performed. -/
def fetch_url_run (w : Nat → AttemptRes) (url : String) (timeout : Nat) :
    FetchRet × Nat × Nat :=
  if valid_url_format url = false then
    ((none, none, some "Invalid URL format"), 0, 0)
  else
    fetch_loop w timeout 3 0 0 0

/-- `extractor.py` `fetch_url`: the `(content_bytes, content_type, error)`
triple returned to the caller. -/
def fetch_url (w : Nat → AttemptRes) (url : String) (timeout : Nat) :
    FetchRet :=
  (fetch_url_run w url timeout).1

/-- A transient (retried) failure: timeout or connection-level. -/
def transientRes (r : AttemptRes) : Prop :=
  r = .timeout ∨ r = .connError

/-! ### PDF text extraction — `extractor.py`,
`extract_text_from_pdf_bytes` (lines 137-179)

`pypdf` is external: an oracle describes what `PdfReader` yields — either
a parse failure (the constructor or page access raising) or a page list,
each page either raising inside `extract_text()` or yielding a string. -/

/-- What `page.extract_text()` does for one page. -/
inductive PageRes where
  | raises (msg : String)
  | ok (text : String)
deriving DecidableEq

/-- What `PdfReader(pdf_file)` yields for the document. -/
inductive PdfParse where
  | fail (msg : String)
  | doc (pages : List PageRes)
deriving DecidableEq

/-- The regex `re.sub(r'\s+', ' ', ...)` (`extractor.py` line 172):
every maximal run of whitespace becomes a single space.  Implemented as
mapping whitespace to spaces and then dropping a space that is
immediately followed by another space. -/
def squeeze_spaces : List Char → List Char
  | [] => []
  | [c] => [c]
  | a :: b :: rest =>
    if a = ' ' && b = ' ' then squeeze_spaces (b :: rest)
    else a :: squeeze_spaces (b :: rest)

/-- First cleanup pass of `extract_text_from_pdf_bytes`. -/
def collapse_ws (l : List Char) : List Char :=
  squeeze_spaces (l.map (fun c => if isPyWs c then ' ' else c))

/-- Split a character list at its last newline: `(through it, after it)`. -/
def splitAtLastNl (l : List Char) : List Char × List Char :=
  let k := l.length - (l.reverse.takeWhile (fun c => c ≠ '\n')).length
  (l.take k, l.drop k)

/-- The regex `re.sub(r'\n\s*\n\s*\n', '\n\n', ...)` (`extractor.py`
line 173) with Python's leftmost-match, greedy-group semantics: at a
newline, the match (when the following whitespace run contains at least
two further newlines) greedily extends through the last newline of that
run and is replaced by two newlines; scanning resumes after it. -/
def sub_triple_nl : List Char → List Char
  | [] => []
  | c :: rest =>
    if c = '\n' && 2 ≤ (rest.takeWhile isPyWs).count '\n' then
      '\n' :: '\n' ::
        sub_triple_nl ((splitAtLastNl (rest.takeWhile isPyWs)).2 ++
          rest.dropWhile isPyWs)
    else
      c :: sub_triple_nl rest
termination_by l => l.length
decreasing_by
  all_goals
    have h1 : (rest.takeWhile isPyWs).length +
        (rest.dropWhile isPyWs).length = rest.length := by
      have h := congrArg List.length
        (List.takeWhile_append_dropWhile isPyWs rest)
      rw [List.length_append] at h
      exact h
    have h2 : ((splitAtLastNl (rest.takeWhile isPyWs)).2).length ≤
        (rest.takeWhile isPyWs).length := by
      simp [splitAtLastNl]
    simp only [List.length_append, List.length_cons]
    omega

/-- `extractor.py` lines 160-161: a page contributes its stripped text
exactly when `page_text` is truthy and `page_text.strip()` is truthy. -/
def page_contribution : PageRes → Option String
  | .raises _ => none
  | .ok t => if t ≠ "" && pyStrip t ≠ "" then some (pyStrip t) else none

/-- `extractor.py` `extract_text_from_pdf_bytes`: empty input bytes or an
unparseable / zero-page document yield `""`; otherwise the first
`min(10, page_count)` pages are extracted (per-page failures skipped),
joined with blank lines, whitespace-normalized and stripped. -/
def extract_text_from_pdf_bytes (w : PdfParse) (pdf_bytes : List Nat) :
    String :=
  if pdf_bytes.isEmpty then ""
  else
    match w with
    | .fail _ => ""
    | .doc pages =>
      if pages.length = 0 then ""
      else
        let max_pages := min 10 pages.length
        let text_parts := (pages.take max_pages).filterMap page_contribution
        let full_text := String.intercalate "\n\n" text_parts
        String.mk (strip_chars (sub_triple_nl (collapse_ws full_text.toList)))

/-! ### Report Synthesizer — `agent.py` lines 24-147

Reports are Python dicts; they are modelled as association lists of
string keys to JSON-like values so that the presence of the required
fields is an actual property of the returned object. -/

/-- A Python/JSON value as it appears in the report dictionaries. -/
inductive Val where
  | s (x : String)
  | arr (l : List Val)
  | dict (fields : List (String × Val))

/-- A Python dict with string keys. -/
def ReportDict := List (String × Val)

/-- An accepted source: `{url, title, content}` (`agent.py` line 215). -/
structure Source where
  url : String
  title : String
  content : String
deriving DecidableEq

/-- The language-model boundary for one `summarize_with_openai` call:
the client is unavailable (no key or construction failure), the
chat-completion call raises, or it replies with `raw` text whose
`json.loads` outcome is `parsed` (`none` models `JSONDecodeError`;
`some rd` a decoded JSON object). -/
inductive LLMWorld where
  | unavailable
  | raises (msg : String)
  | replies (raw : String) (parsed : Option (List (String × Val)))

/-- `agent.py` `create_fallback_summary` (lines 90-109), translated
field by field. -/
def create_fallback_summary (sources : List Source) (query : String) :
    ReportDict :=
  [("title", .s ("Research Report: " ++ query)),
   ("summary", .s ("Found " ++ toString sources.length ++
      " sources related to \x27" ++ query ++
      "\x27. This report was generated using content extraction and analysis of web sources.")),
   ("key_points", .arr
      (([Val.s ("Successfully searched for: " ++ query),
         Val.s ("Retrieved " ++ toString sources.length ++ " relevant sources"),
         Val.s "Content extracted from web pages",
         Val.s (if sources.length > 1 then
             "Sources include academic and news articles"
           else "Single source analyzed"),
         Val.s "Data compiled from recent web content"]).take 5)),
   ("references", .arr (sources.map (fun src =>
      Val.dict [("url", .s src.url),
                ("note", .s (if src.title.length > 60 then
                    src.title.take 60 ++ "..."
                  else src.title))]))),
   ("raw_prompt_response", .s "Fallback summary generated without OpenAI")]

/-- The section tracker `current_section` of `parse_text_response`. -/
inductive RespSection where
  | summary
  | key_points
  | references
deriving DecidableEq

/-- Loop state of `parse_text_response` (`agent.py` lines 114-119). -/
structure ParseState where
  title : String
  summary : String
  key_points : List String
  references : List Val
  current : Option RespSection

/-- Python `line.lstrip("-• ")`. -/
def lstrip_bullets (s : String) : String :=
  String.mk (s.toList.dropWhile (fun c => c = '-' || c = '•' || c = ' '))

/-- One iteration of the `for line in lines` loop of
`parse_text_response` (`agent.py` lines 120-139), branch for branch. -/
def parse_line_step (st : ParseState) (line0 : String) : ParseState :=
  let line := pyStrip line0
  if line = "" then st
  else if containsSub (py_lower line) "title:" || py_startswith line "#" then
    { st with title := pyStrip ((line.replace "Title:" "").replace "#" "") }
  else if containsSub (py_lower line) "summary:" then
    { st with current := some .summary,
              summary := pyStrip (line.replace "Summary:" "") }
  else if containsSub (py_lower line) "key points:" ||
      containsSub (py_lower line) "key_points:" then
    { st with current := some .key_points }
  else if containsSub (py_lower line) "references:" then
    { st with current := some .references }
  else if st.current = some .summary && st.summary ≠ "" then
    { st with summary := st.summary ++ " " ++ line }
  else if st.current = some .key_points &&
      (py_startswith line "-" || py_startswith line "•") then
    { st with key_points := st.key_points ++ [lstrip_bullets line] }
  else if st.current = some .references &&
      (py_startswith line "-" || py_startswith line "•") then
    { st with references := st.references ++
        [Val.dict [("url", .s "N/A"), ("note", .s (lstrip_bullets line))]] }
  else st

/-- `agent.py` `parse_text_response` (lines 111-147): heuristic
line-oriented parsing of a non-JSON model reply, with placeholder
values for missing pieces. -/
def parse_text_response (raw_response : String) (query : String) :
    ReportDict :=
  let st := (raw_response.splitOn "\n").foldl parse_line_step
    { title := "Research Report: " ++ query, summary := "",
      key_points := [], references := [], current := none }
  [("title", .s (if st.title = "" then "Research Report: " ++ query
                 else st.title)),
   ("summary", .s (if st.summary = "" then
       "Summary not available from parsed response"
     else st.summary)),
   ("key_points", .arr (if st.key_points.isEmpty then
       [Val.s "No key points extracted from response"]
     else st.key_points.map Val.s)),
   ("references", .arr st.references),
   ("raw_prompt_response", .s raw_response)]

/-- `agent.py` lines 45-50: the labeled source block concatenation of the
user prompt, each source's content truncated to the per-source budget. -/
def build_source_texts (sources : List Source) (budget : Nat) : String :=
  (sources.enumFrom 1).foldl (fun acc p =>
    acc ++ "\n\n--- SOURCE " ++ toString p.1 ++ ": " ++ p.2.title ++
      " (" ++ p.2.url ++ ") ---\n" ++ p.2.content.take budget) ""

/-- `agent.py` `summarize_with_openai` (lines 24-88).  Exceptions are
modelled in `Except`: the chat-completion call raising and JSON decode
failure are the possible raisers, and both are caught by the source's
`try`/`except` blocks, so every branch returns `.ok`.  A decoded JSON
object is accepted only when all four required fields are present
(line 71-72); otherwise, and on `JSONDecodeError`, the reply falls
through to `parse_text_response`. -/
def summarize_with_openai (w : LLMWorld) (sources : List Source)
    (query : String) : Except String ReportDict :=
  match w with
  | .unavailable => .ok (create_fallback_summary sources query)
  | .raises _msg => .ok (create_fallback_summary sources query)
  | .replies raw parsed =>
    let budget := max_content_per_source sources.length
    let _user_prompt := "Query: " ++ query ++ "\n\nSources:" ++
      build_source_texts sources budget ++
      "\n\nProvide a structured JSON report:"
    let raw_response := pyStrip raw
    match parsed with
    | none => .ok (parse_text_response raw_response query)
    | some report_data =>
      match report_data.lookup "title", report_data.lookup "summary",
          report_data.lookup "key_points", report_data.lookup "references" with
      | some t, some s, some k, some r =>
        .ok [("title", t), ("summary", s), ("key_points", k),
             ("references", r), ("raw_prompt_response", .s raw_response)]
      | _, _, _, _ => .ok (parse_text_response raw_response query)

/-- The `references` entry of a report dict, as a list (empty when the
key is absent or not an array). -/
def refs_of (d : ReportDict) : List Val :=
  match d.lookup "references" with
  | some (.arr l) => l
  | _ => []

/-! ### Source Collector — `agent.py` lines 175-235 -/

/-- A search result `{title, link}` as consumed by the collector loop
(the snippet is never read there). -/
structure SearchResult where
  title : String
  link : String
deriving DecidableEq

/-- A skipped-source log entry `{url, title, reason}` (`agent.py`
lines 187-234). -/
structure Skipped where
  url : String
  title : String
  reason : String
deriving DecidableEq

/-- The external effects seen while processing one search result inside
the collector's `try` block: the attempt oracle for this result's
`fetch_url(url)` call, what the dispatched text extractor returns on the
fetched bytes (`extract_text_from_pdf_bytes` when the content type
contains "pdf", else `extract_text_from_html`), and an optional
unexpected exception caught by the `except` at line 229. -/
structure ProcEnv where
  fetch : Nat → AttemptRes
  pdf_text : String
  html_text : String
  unexpected : Option String

/-- Processing of one search result (`agent.py` lines 180-235): URL gate,
fetch, content-type dispatch, length check with 30,000-character
truncation; the outcome is an accepted `Source` or a `Skipped` entry. -/
def process_result (env : ProcEnv) (r : SearchResult) : Source ⊕ Skipped :=
  if is_valid_url r.link = false then
    .inr { url := r.link, title := r.title, reason := "Blocked domain" }
  else
    match env.unexpected with
    | some m =>
      .inr { url := r.link, title := r.title,
             reason := "Processing error: " ++ m }
    | none =>
      match fetch_url env.fetch r.link 30 with
      | (content_bytes, content_type, some e) =>
        let _ := content_bytes
        let _ := content_type
        .inr { url := r.link, title := r.title,
               reason := "Fetch error: " ++ e }
      | (_content_bytes, content_type, none) =>
        let content_text :=
          match content_type with
          | some ct => if ct ≠ "" && containsSub ct "pdf" then env.pdf_text
                       else env.html_text
          | none => env.html_text
        if content_text ≠ "" && (pyStrip content_text).length > 100 then
          .inl { url := r.link, title := r.title,
                 content := content_text.take 30000 }
        else
          .inr { url := r.link, title := r.title,
                 reason := "Insufficient content extracted" }

/-- The collector loop over the search results, in result order; `i` is
the position used to index the per-result environments. -/
def collect_go (proc : Nat → ProcEnv) : Nat → List SearchResult →
    List Source × List Skipped
  | _, [] => ([], [])
  | i, r :: rest =>
    let tail := collect_go proc (i + 1) rest
    match process_result (proc i) r with
    | .inl src => (src :: tail.1, tail.2)
    | .inr skp => (tail.1, skp :: tail.2)

/-- The Source Collector stage of `run_agent_for_query`: the accepted
`sources` and the `skipped_sources` lists (`agent.py` lines 177-235). -/
def collect_sources (proc : Nat → ProcEnv) (results : List SearchResult) :
    List Source × List Skipped :=
  collect_go proc 0 results

/-! ### Persistence — `db.py`, `save_report` (lines 72-90) -/

/-- Outcome of the sqlite insert inside `save_report`: a fresh row id, or
a database exception. -/
inductive DbRes where
  | ok (id : Int)
  | dbError (msg : String)
deriving DecidableEq

/-- `db.py` `save_report`: inserts the report row and returns
`lastrowid`; any exception is caught, logged, and the sentinel `-1` is
returned instead (lines 88-90).  Modelled in `Except` to make "never
raises" a statement: no branch produces `.error`. -/
def save_report (db : DbRes) : Except String Int :=
  match db with
  | .ok id => .ok id
  | .dbError _msg => .ok (-1)

/-! ### Pipeline Orchestrator — `agent.py`, `run_agent_for_query`
(lines 149-299) -/

/-- Outcome of the `serpapi_search` call: an exception or a result list. -/
inductive SearchOutcome where
  | raises (msg : String)
  | results (l : List SearchResult)

/-- The persistence step's behaviour.  The spec treats the store as an
external collaborator that may raise (the orchestrator guards the save
stage with `try`/`except`, lines 262-299); when it does not raise, the
repository's own `save_report` runs against a database outcome. -/
inductive SaveOutcome where
  | raises (msg : String)
  | db (r : DbRes)

/-- All external effects of one `run_agent_for_query` invocation. -/
structure AgentWorld where
  search : SearchOutcome
  proc : Nat → ProcEnv
  llm : LLMWorld
  save : SaveOutcome

/-- The `PipelineOutcome` dict returned by `run_agent_for_query`; `none`
models an absent key (or an explicit Python `None` for `report_id`).
The wall-clock `processing_time` field is not modelled. -/
structure Outcome where
  success : Bool
  error : Option String
  report_id : Option Int
  sources_found : Option Nat
  skipped_sources : Option (List Skipped)
deriving DecidableEq

/-- `agent.py` `run_agent_for_query`: Search (no results or exception ⇒
fail) → Source Collector (zero accepted ⇒ fail with the skipped list) →
Report Synthesizer (exception ⇒ fail) → persist (exception ⇒ fail;
otherwise `save_report`'s return value becomes `report_id`) → success. -/
def run_agent_for_query (w : AgentWorld) (query : String) : Outcome :=
  match w.search with
  | .raises m =>
    { success := false, error := some ("Search failed: " ++ m),
      report_id := none, sources_found := none, skipped_sources := none }
  | .results search_results =>
    if search_results.isEmpty then
      { success := false, error := some "No search results found",
        report_id := none, sources_found := none, skipped_sources := none }
    else
      let sources := (collect_sources w.proc search_results).1
      let skipped := (collect_sources w.proc search_results).2
      if sources.isEmpty then
        { success := false,
          error := some "No content could be extracted from any source",
          report_id := none, sources_found := none,
          skipped_sources := some skipped }
      else
        match summarize_with_openai w.llm sources query with
        | .error m =>
          { success := false, error := some ("Summarization failed: " ++ m),
            report_id := none, sources_found := some sources.length,
            skipped_sources := some skipped }
        | .ok _report =>
          match w.save with
          | .raises m =>
            { success := false,
              error := some ("Database save failed: " ++ m),
              report_id := none, sources_found := some sources.length,
              skipped_sources := some skipped }
          | .db r =>
            match save_report r with
            | .ok report_id =>
              { success := true, error := none,
                report_id := some report_id,
                sources_found := some sources.length,
                skipped_sources := some skipped }
            | .error m =>
              { success := false,
                error := some ("Database save failed: " ++ m),
                report_id := none, sources_found := some sources.length,
                skipped_sources := some skipped }

/-- The spec's notion for claim C6: "persisting the report fails" — the
persistence step raises, or the database insert inside `save_report`
fails. -/
def persistFails (w : AgentWorld) : Prop :=
  (∃ m, w.save = .raises m) ∨ (∃ m, w.save = .db (.dbError m))

/-! ## Theorems -/

/-- Boolean normal form of `is_valid_url`. -/
theorem is_valid_url_eq (url : String) :
    is_valid_url url =
      (!(blocked_domains.any (fun domain => containsSub (py_lower url) domain) ||
         blocked_extensions.any (fun ext => containsSub (py_lower url) ext))) := by
  unfold is_valid_url
  by_cases h1 :
      blocked_domains.any (fun domain => containsSub (py_lower url) domain) = true
  · simp [h1]
  · by_cases h2 :
        blocked_extensions.any (fun ext => containsSub (py_lower url) ext) = true
    · simp [h1, h2]
    · simp [h1, h2]

/-- C7: the URL Gate is a total predicate returning `false` exactly when
the lowercased URL contains a denylisted domain substring or a
denylisted file-extension substring, and `true` otherwise. -/
theorem is_valid_url_denylist (url : String) :
    is_valid_url url = false ↔
      ((∃ d ∈ blocked_domains, containsSub (py_lower url) d = true) ∨
       (∃ e ∈ blocked_extensions, containsSub (py_lower url) e = true)) := by
  rw [is_valid_url_eq]
  simp only [Bool.not_eq_false', Bool.or_eq_true, List.any_eq_true]

/-- C3: for any source count `n ≥ 1` the per-source character budget
`min(3000, 12000 // max(1, n))` is at most 3,000 and its total over all
`n` sources is at most 12,000. -/
theorem max_content_per_source_bounds (n : Nat) (h : 1 ≤ n) :
    max_content_per_source n ≤ 3000 ∧ max_content_per_source n * n ≤ 12000 := by
  constructor
  · exact min_le_left _ _
  · have h2 : max 1 n = n := Nat.max_eq_right h
    have h1 : max_content_per_source n ≤ 12000 / n := by
      unfold max_content_per_source
      rw [h2]
      exact min_le_right _ _
    calc max_content_per_source n * n ≤ (12000 / n) * n :=
          Nat.mul_le_mul_right n h1
      _ ≤ 12000 := Nat.div_mul_le_self 12000 n

/-- Witness for C3 at the concrete source count 7. -/
theorem max_content_per_source_bounds_witness :
    1 ≤ 7 ∧ (max_content_per_source 7 ≤ 3000 ∧
      max_content_per_source 7 * 7 ≤ 12000) :=
  ⟨by decide, max_content_per_source_bounds 7 (by decide)⟩

/-- C1: the Source Collector accounts for every search result exactly
once — accepted sources plus skipped entries equal the search results. -/
theorem collect_sources_accounting (proc : Nat → ProcEnv)
    (results : List SearchResult) :
    (collect_sources proc results).1.length +
      (collect_sources proc results).2.length = results.length := by
  unfold collect_sources
  suffices h : ∀ i l, (collect_go proc i l).1.length +
      (collect_go proc i l).2.length = l.length from h 0 results
  intro i l
  induction l generalizing i with
  | nil => rfl
  | cons r rest ih =>
    cases hpr : process_result (proc i) r with
    | inl src =>
      simp only [collect_go, hpr, List.length_cons]
      have := ih (i + 1)
      omega
    | inr skp =>
      simp only [collect_go, hpr, List.length_cons]
      have := ih (i + 1)
      omega

/-- C8: with the language-model client unavailable, or its call raising,
the synthesizer returns exactly the offline fallback report, whose
references are one entry per source in order, the note being the title
truncated to 60 characters with an appended "..." exactly when longer. -/
theorem fallback_references_shape (sources : List Source)
    (query msg : String) :
    summarize_with_openai .unavailable sources query =
        .ok (create_fallback_summary sources query)
    ∧ summarize_with_openai (.raises msg) sources query =
        .ok (create_fallback_summary sources query)
    ∧ refs_of (create_fallback_summary sources query) =
        sources.map (fun src => Val.dict
          [("url", .s src.url),
           ("note", .s (if src.title.length > 60 then
               src.title.take 60 ++ "..."
             else src.title))])
    ∧ (refs_of (create_fallback_summary sources query)).length =
        sources.length := by
  have h3 : refs_of (create_fallback_summary sources query) =
      sources.map (fun src => Val.dict
        [("url", .s src.url),
         ("note", .s (if src.title.length > 60 then
             src.title.take 60 ++ "..."
           else src.title))]) := rfl
  refine ⟨rfl, rfl, h3, ?_⟩
  rw [h3, List.length_map]

/-- Helper: the synthesizer always returns `.ok` (shared by the
orchestrator proofs). -/
theorem summarize_eq_ok (w : LLMWorld) (sources : List Source)
    (query : String) :
    ∃ d, summarize_with_openai w sources query = .ok d := by
  cases w with
  | unavailable => exact ⟨_, rfl⟩
  | raises m => exact ⟨_, rfl⟩
  | replies raw parsed =>
    cases parsed with
    | none => exact ⟨_, rfl⟩
    | some rd =>
      simp only [summarize_with_openai]
      split
      · exact ⟨_, rfl⟩
      · exact ⟨_, rfl⟩

/-- C2: in every mode of the language-model boundary the synthesizer
returns normally (no branch raises) and the returned report dict has
all four required fields `title`, `summary`, `key_points`,
`references`. -/
theorem summarize_with_openai_total_fields (w : LLMWorld)
    (sources : List Source) (query : String) :
    ∃ d, summarize_with_openai w sources query = .ok d
      ∧ (d.lookup "title").isSome = true
      ∧ (d.lookup "summary").isSome = true
      ∧ (d.lookup "key_points").isSome = true
      ∧ (d.lookup "references").isSome = true := by
  cases w with
  | unavailable => exact ⟨_, rfl, rfl, rfl, rfl, rfl⟩
  | raises m => exact ⟨_, rfl, rfl, rfl, rfl, rfl⟩
  | replies raw parsed =>
    cases parsed with
    | none => exact ⟨_, rfl, rfl, rfl, rfl, rfl⟩
    | some rd =>
      simp only [summarize_with_openai]
      split
      · exact ⟨_, rfl, rfl, rfl, rfl, rfl⟩
      · exact ⟨_, rfl, rfl, rfl, rfl, rfl⟩

/-- Helper for C9: replacing page `i` by a raising page or by an
empty-text page yields the same contributions. -/
theorem filterMap_page_set (pages : List PageRes) (n i : Nat)
    (m : String) :
    ((pages.set i (.raises m)).take n).filterMap page_contribution =
      ((pages.set i (.ok "")).take n).filterMap page_contribution := by
  induction pages generalizing n i with
  | nil => simp
  | cons p rest ih =>
    cases n with
    | zero => simp
    | succ n =>
      cases i with
      | zero => simp [page_contribution, pyStrip, strip_chars]
      | succ i =>
        simp only [List.set_cons_succ, List.take_succ_cons,
          List.filterMap_cons]
        rw [ih n i]

/-- Equation for the regular branch of `extract_text_from_pdf_bytes`. -/
theorem extract_pdf_doc_eq (pages : List PageRes) (b : List Nat)
    (hb : b.isEmpty = false) (hp : ¬pages.length = 0) :
    extract_text_from_pdf_bytes (.doc pages) b =
      String.mk (strip_chars (sub_triple_nl (collapse_ws
        (String.intercalate "\n\n"
          ((pages.take (min 10 pages.length)).filterMap
            page_contribution)).toList))) := by
  unfold extract_text_from_pdf_bytes
  simp [hb, hp]

/-- C9: PDF extraction looks at most at the first 10 pages; a page whose
extraction raises contributes exactly as much as an empty page (nothing),
the others still being processed; an unparseable document or one with
zero pages yields the empty string. -/
theorem extract_pdf_page_policy (b : List Nat) (pages : List PageRes)
    (i : Nat) (m : String) :
    extract_text_from_pdf_bytes (.doc pages) b =
        extract_text_from_pdf_bytes (.doc (pages.take 10)) b
    ∧ extract_text_from_pdf_bytes (.doc (pages.set i (.raises m))) b =
        extract_text_from_pdf_bytes (.doc (pages.set i (.ok ""))) b
    ∧ extract_text_from_pdf_bytes (.fail m) b = ""
    ∧ extract_text_from_pdf_bytes (.doc []) b = "" := by
  by_cases hb : b.isEmpty
  · refine ⟨?_, ?_, ?_, ?_⟩ <;> simp [extract_text_from_pdf_bytes, hb]
  · rw [Bool.not_eq_true] at hb
    refine ⟨?_, ?_, ?_, ?_⟩
    · by_cases hp : pages.length = 0
      · have hnil : pages = [] := List.length_eq_zero.mp hp
        subst hnil
        simp
      · have hp' : ¬(pages.take 10).length = 0 := by
          rw [List.length_take]
          omega
        rw [extract_pdf_doc_eq pages b hb hp,
          extract_pdf_doc_eq (pages.take 10) b hb hp']
        have harg : (pages.take 10).take (min 10 (pages.take 10).length) =
            pages.take (min 10 pages.length) := by
          rw [List.take_take, List.length_take]
          congr 1
          omega
        rw [harg]
    · by_cases hp : pages.length = 0
      · have hnil : pages = [] := List.length_eq_zero.mp hp
        subst hnil
        simp
      · have h1 : ¬(pages.set i (.raises m)).length = 0 := by
          rw [List.length_set]
          exact hp
        have h2 : ¬(pages.set i (.ok "")).length = 0 := by
          rw [List.length_set]
          exact hp
        rw [extract_pdf_doc_eq _ b hb h1, extract_pdf_doc_eq _ b hb h2,
          List.length_set, List.length_set, filterMap_page_set]
    · simp [extract_text_from_pdf_bytes, hb]
    · simp [extract_text_from_pdf_bytes, hb]

/-- Helper: the success-response handler always counts one attempt and
no extra sleep. -/
theorem fetch_success_counters (ct : String) (cl : Option Nat)
    (chunks : List (List Nat)) (att slp : Nat) :
    (fetch_success_result ct cl chunks att slp).2.1 = att + 1 ∧
      (fetch_success_result ct cl chunks att slp).2.2 = slp := by
  unfold fetch_success_result
  split
  · exact ⟨rfl, rfl⟩
  · split
    · exact ⟨rfl, rfl⟩
    · exact ⟨rfl, rfl⟩

/-- Helper: the success-response handler returns bytes iff no error. -/
theorem fetch_success_exclusive (ct : String) (cl : Option Nat)
    (chunks : List (List Nat)) (att slp : Nat) :
    ((fetch_success_result ct cl chunks att slp).1.1 = none ↔
      ¬(fetch_success_result ct cl chunks att slp).1.2.2 = none) := by
  unfold fetch_success_result
  split
  · simp
  · split
    · simp
    · simp

/-- Helper for C4: on every path of the retry loop, content bytes are
absent exactly when an error string is present. -/
theorem fetch_loop_exclusive (w : Nat → AttemptRes) (t : Nat) :
    ∀ fuel attempt att slp,
      ((fetch_loop w t fuel attempt att slp).1.1 = none ↔
        ¬(fetch_loop w t fuel attempt att slp).1.2.2 = none) := by
  intro fuel
  induction fuel with
  | zero =>
    intro attempt att slp
    simp [fetch_loop]
  | succ fuel ih =>
    intro attempt att slp
    simp only [fetch_loop]
    cases hw : w attempt with
    | timeout =>
      by_cases hlt : attempt < 2
      · simpa [hlt] using ih (attempt + 1) (att + 1) (slp + 1)
      · simp [hlt]
    | connError =>
      by_cases hlt : attempt < 2
      · simpa [hlt] using ih (attempt + 1) (att + 1) (slp + 1)
      · simp [hlt]
    | httpError status => simp
    | reqError m => simp
    | otherExc m => simp
    | success ct cl chunks => exact fetch_success_exclusive ct cl chunks att slp

/-- C4: `fetch_url` returns exactly one of content bytes or an error
string — on every path, bytes are `None` iff the error is non-`None`. -/
theorem fetch_url_exclusive_outcome (w : Nat → AttemptRes) (url : String)
    (t : Nat) :
    ((fetch_url w url t).1 = none ↔ ¬(fetch_url w url t).2.2 = none) := by
  unfold fetch_url fetch_url_run
  by_cases hv : valid_url_format url = false
  · simp [hv]
  · simp only [hv, if_false]
    exact fetch_loop_exclusive w t 3 0 0 0

/-- Helper for C5: the loop issues at most `fuel` further attempts. -/
theorem fetch_loop_att_le (w : Nat → AttemptRes) (t : Nat) :
    ∀ fuel attempt att slp,
      (fetch_loop w t fuel attempt att slp).2.1 ≤ att + fuel := by
  intro fuel
  induction fuel with
  | zero =>
    intro attempt att slp
    simp [fetch_loop]
  | succ fuel ih =>
    intro attempt att slp
    simp only [fetch_loop]
    cases hw : w attempt with
    | timeout =>
      by_cases hlt : attempt < 2
      · simp only [hlt, if_true]
        have := ih (attempt + 1) (att + 1) (slp + 1)
        omega
      · simp only [hlt, if_false]
        omega
    | connError =>
      by_cases hlt : attempt < 2
      · simp only [hlt, if_true]
        have := ih (attempt + 1) (att + 1) (slp + 1)
        omega
      · simp only [hlt, if_false]
        omega
    | httpError status =>
      show att + 1 ≤ att + (fuel + 1)
      omega
    | reqError m =>
      show att + 1 ≤ att + (fuel + 1)
      omega
    | otherExc m =>
      show att + 1 ≤ att + (fuel + 1)
      omega
    | success ct cl chunks =>
      have h := (fetch_success_counters ct cl chunks att slp).1
      show (fetch_success_result ct cl chunks att slp).2.1 ≤ att + (fuel + 1)
      omega

/-- Helper for C5: three transient failures exhaust the attempts, with a
one-second pause after each of the first two, and end in an error. -/
theorem fetch_loop_all_transient (w : Nat → AttemptRes) (t : Nat)
    (h : ∀ i, i < 3 → transientRes (w i)) :
    (fetch_loop w t 3 0 0 0).2.1 = 3 ∧ (fetch_loop w t 3 0 0 0).2.2 = 2 ∧
      (fetch_loop w t 3 0 0 0).1.1 = none ∧
      ¬(fetch_loop w t 3 0 0 0).1.2.2 = none := by
  have h0 := h 0 (by decide)
  have h1 := h 1 (by decide)
  have h2 := h 2 (by decide)
  rcases h0 with h0 | h0 <;> rcases h1 with h1 | h1 <;>
    rcases h2 with h2 | h2 <;>
      simp [fetch_loop, h0, h1, h2]

/-- Helper for C5: an HTTP status error at attempt `i` (after only
transient failures) stops the loop at once with the status embedded. -/
theorem fetch_loop_http_immediate (w : Nat → AttemptRes) (t s : Nat) :
    ∀ i, i < 3 → (∀ j, j < i → transientRes (w j)) → w i = .httpError s →
      ((fetch_loop w t 3 0 0 0).1 =
          (none, none, some ("HTTP error: " ++ toString s)) ∧
        (fetch_loop w t 3 0 0 0).2.1 = i + 1 ∧
        (fetch_loop w t 3 0 0 0).2.2 = i) := by
  intro i hi hpre hw
  interval_cases i
  · simp [fetch_loop, hw]
  · have h0 := hpre 0 (by decide)
    rcases h0 with h0 | h0 <;> simp [fetch_loop, h0, hw]
  · have h0 := hpre 0 (by decide)
    have h1 := hpre 1 (by decide)
    rcases h0 with h0 | h0 <;> rcases h1 with h1 | h1 <;>
      simp [fetch_loop, h0, h1, hw]

/-- C5: `fetch_url` issues at most 3 attempts; on a valid-format URL with
only timeout/connection failures it makes exactly 3 attempts separated by
two one-second pauses and ends with a terminal error string; an HTTP
status error is never retried — it returns at once with the status code
embedded and no further pause. -/
theorem fetch_url_retry_policy (w : Nat → AttemptRes) (url : String)
    (t : Nat) :
    (fetch_url_run w url t).2.1 ≤ 3
    ∧ (valid_url_format url = true →
        (∀ i, i < 3 → transientRes (w i)) →
        ((fetch_url_run w url t).2.1 = 3 ∧
          (fetch_url_run w url t).2.2 = 2 ∧
          (fetch_url_run w url t).1.1 = none ∧
          ¬(fetch_url_run w url t).1.2.2 = none))
    ∧ (∀ i s, valid_url_format url = true → i < 3 →
        (∀ j, j < i → transientRes (w j)) → w i = .httpError s →
        ((fetch_url_run w url t).1 =
            (none, none, some ("HTTP error: " ++ toString s)) ∧
          (fetch_url_run w url t).2.1 = i + 1 ∧
          (fetch_url_run w url t).2.2 = i)) := by
  refine ⟨?_, ?_, ?_⟩
  · unfold fetch_url_run
    split
    · show (0 : Nat) ≤ 3
      omega
    · have := fetch_loop_att_le w t 3 0 0 0
      omega
  · intro hv htr
    have hne : ¬valid_url_format url = false := by
      rw [hv]
      simp
    unfold fetch_url_run
    rw [if_neg hne]
    exact fetch_loop_all_transient w t htr
  · intro i s hv hi hpre hw
    have hne : ¬valid_url_format url = false := by
      rw [hv]
      simp
    unfold fetch_url_run
    rw [if_neg hne]
    exact fetch_loop_http_immediate w t s i hi hpre hw

/-- Witness for C5 at concrete worlds: an all-timeouts run makes exactly
3 attempts with 2 pauses, and an immediate HTTP 404 stops after one
attempt with the code embedded. -/
theorem fetch_url_retry_policy_witness :
    ((fetch_url_run (fun _ => AttemptRes.timeout) "http://a" 30).2.1 = 3 ∧
      (fetch_url_run (fun _ => AttemptRes.timeout) "http://a" 30).2.2 = 2 ∧
      (fetch_url_run (fun _ => AttemptRes.timeout) "http://a" 30).1.1 =
        none ∧
      ¬(fetch_url_run (fun _ => AttemptRes.timeout) "http://a" 30).1.2.2 =
        none)
    ∧ ((fetch_url_run (fun _ => AttemptRes.httpError 404) "http://a"
          30).1 = (none, none, some ("HTTP error: " ++ toString 404)) ∧
        (fetch_url_run (fun _ => AttemptRes.httpError 404) "http://a"
          30).2.1 = 0 + 1 ∧
        (fetch_url_run (fun _ => AttemptRes.httpError 404) "http://a"
          30).2.2 = 0) := by
  constructor
  · exact (fetch_url_retry_policy (fun _ => AttemptRes.timeout)
      "http://a" 30).2.1 (by decide) (fun i _ => Or.inl rfl)
  · exact (fetch_url_retry_policy (fun _ => AttemptRes.httpError 404)
      "http://a" 30).2.2 0 404 (by decide) (by decide)
      (fun j hj => absurd hj (Nat.not_lt_zero j)) rfl

/-- C6 counterexample: a concrete run reaching the save stage whose
database insert fails ("disk full").  Persisting the report fails, yet
`run_agent_for_query` returns a success outcome with `report_id = -1`,
because `save_report` swallows the database error — refuting the claim
that a failed persist always yields `success = false`. -/
theorem run_agent_db_error_counterexample :
    let wcx : AgentWorld :=
      { search := .results [{ title := "T", link := "http://example.com" }],
        proc := fun _ =>
          { fetch := fun _ => .success "text/html" none [[104, 105]],
            pdf_text := "",
            html_text := String.mk (List.replicate 150 'a'),
            unexpected := none },
        llm := .unavailable,
        save := .db (.dbError "disk full") }
    persistFails wcx ∧
      (run_agent_for_query wcx "q").success = true ∧
      (run_agent_for_query wcx "q").report_id = some (-1) := by
  intro wcx
  refine ⟨Or.inr ⟨"disk full", rfl⟩, ?_, ?_⟩
  · decide
  · decide

/-- C6 (amended): for every run that reaches the save stage, if the
persistence step raises an exception, `run_agent_for_query` returns a
failure outcome — `success = false`, no `report_id`, and the error
naming the database save.  (A database error caught inside
`save_report` instead yields a success outcome with `report_id = -1`.) -/
theorem run_agent_save_raises_failure (w : AgentWorld) (q m : String)
    (rs : List SearchResult) (hs : w.search = .results rs)
    (hne : rs.isEmpty = false)
    (hsrc : (collect_sources w.proc rs).1.isEmpty = false)
    (hsave : w.save = .raises m) :
    (run_agent_for_query w q).success = false ∧
      (run_agent_for_query w q).report_id = none ∧
      (run_agent_for_query w q).error =
        some ("Database save failed: " ++ m) := by
  obtain ⟨d, hd⟩ := summarize_eq_ok w.llm (collect_sources w.proc rs).1 q
  unfold run_agent_for_query
  rw [hs]
  simp only [hne, Bool.false_eq_true, if_false, hsrc, hd, hsave]
  exact ⟨trivial, trivial, trivial⟩

/-- Witness for C6 (amended) at a concrete world whose persistence step
raises "boom". -/
theorem run_agent_save_raises_failure_witness :
    let wbx : AgentWorld :=
      { search := .results [{ title := "T", link := "http://example.com" }],
        proc := fun _ =>
          { fetch := fun _ => .success "text/html" none [[104, 105]],
            pdf_text := "",
            html_text := String.mk (List.replicate 150 'a'),
            unexpected := none },
        llm := .unavailable,
        save := .raises "boom" }
    (run_agent_for_query wbx "q").success = false ∧
      (run_agent_for_query wbx "q").report_id = none ∧
      (run_agent_for_query wbx "q").error =
        some ("Database save failed: " ++ "boom") := by
  intro wbx
  exact run_agent_save_raises_failure wbx "q" "boom"
    [{ title := "T", link := "http://example.com" }] rfl (by decide)
    (by decide) rfl

/-- C10: `save_report` never raises — every database outcome yields a
normal return, a database error yielding the sentinel `-1` — and
consequently a run whose database save fails still produces a success
outcome with `report_id = -1`. -/
theorem save_report_sentinel_success :
    (∀ db, ∃ i, save_report db = .ok i)
    ∧ (∀ m, save_report (.dbError m) = .ok (-1))
    ∧ (let wdb : AgentWorld :=
        { search := .results [{ title := "T", link := "http://example.com" }],
          proc := fun _ =>
            { fetch := fun _ => .success "text/html" none [[104, 105]],
              pdf_text := "",
              html_text := String.mk (List.replicate 150 'a'),
              unexpected := none },
          llm := .unavailable,
          save := .db (.dbError "database is locked") }
       (run_agent_for_query wdb "q").success = true ∧
         (run_agent_for_query wdb "q").report_id = some (-1)) := by
  refine ⟨?_, ?_, ?_, ?_⟩
  · intro db
    cases db with
    | ok id => exact ⟨id, rfl⟩
    | dbError m => exact ⟨-1, rfl⟩
  · intro m
    rfl
  · decide
  · decide

end MiniAgent
